import Mathlib

/-!
Verification of the version-adaptive action resolution and asynchronous
network-capture/validation pipeline of the Warp10 Grafana plugin test suite.

The definitions below are shallow embeddings of the Playwright test code in
`src/tests` (the `page.on(response)` capture handlers, the response
validation loops, the version branching, the selector fallback lists, the
scenario step sequences).  Parts of the system that the repository only
exercises from the outside (the plugin backend, the host request transport)
are modelled from the specification and are marked as such in their doc
comments.
-/

set_option maxRecDepth 4000

/-! ## String utilities

Substring containment with the semantics of JavaScript `String.includes`
(used by `url.includes(...)` and `postData.includes(...)` in the capture
filters), implemented from first principles over the character list. -/

/-- `beginsWith pat s` is true when `pat` is a prefix of `s`. -/
def beginsWith : List Char → List Char → Bool
  | [], _ => true
  | _ :: _, [] => false
  | c :: cs, d :: ds => c == d && beginsWith cs ds

/-- `hasInfix s pat` is true when `pat` occurs contiguously inside `s`
(JS `s.includes(pat)`); the empty pattern is contained in every string. -/
def hasInfix : List Char → List Char → Bool
  | [], pat => pat.isEmpty
  | c :: rest, pat => beginsWith pat (c :: rest) || hasInfix rest pat

/-- JS `s.includes(pat)` on strings. -/
def strContains (s pat : String) : Bool := hasInfix s.data pat.data

/-! ## JSON values

The parsed bodies handled by the capture handlers and validation loops. -/

/-- A JSON-like value, the result of `response.json()`. -/
inductive JVal where
  | jnull : JVal
  | jbool : Bool → JVal
  | jnum : Int → JVal
  | jstr : String → JVal
  | jarr : List JVal → JVal
  | jobj : List (String × JVal) → JVal

/-- Field lookup in an object field list. -/
def lookupField : List (String × JVal) → String → Option JVal
  | [], _ => none
  | (k2, v) :: rest, k => if k2 == k then some v else lookupField rest k

/-- JS optional member access `v?.k`: defined on objects, `undefined`
(`none`) elsewhere. -/
def jget : JVal → String → Option JVal
  | JVal.jobj fields, k => lookupField fields k
  | _, _ => none

/-- JS optional index access `v?.[n]`: defined on arrays, `undefined`
(`none`) elsewhere. -/
def jidx : JVal → Nat → Option JVal
  | JVal.jarr xs, n => xs.get? n
  | _, _ => none

/-! ## Network capture model

Embeds the `page.on(response)` handler shared by `senario.spec.ts`,
`datasource_test.spec.ts` and `editor_test.spec.ts`: matching
`/api/ds/query` POST exchanges are appended to the `responses` array in the
order their responses complete; `/api/datasources .. /health` exchanges set
the `healthResponse` variable; a body whose JSON parse fails only produces
a log line. -/

/-- A completed network exchange as seen by the response listener:
`body` is the result of `response.json()` (`none` when parsing failed). -/
structure NetEvent where
  url : String
  method : String
  body : Option JVal
  status : Nat

/-- An entry of the `responses` capture buffer:
`{ url, json, status }` as pushed by the handler. -/
structure Captured where
  url : String
  json : JVal
  status : Nat

/-- The log lines the handler can emit (`log(...)` calls), abstracted to
their constructors; `parseFailed` records the url of the exchange whose
body could not be parsed. -/
inductive LogEntry where
  | captured : String → Nat → LogEntry
  | parseFailed : String → LogEntry
  | healthReceived : LogEntry
  | healthParseFailed : String → LogEntry

/-- The mutable state closed over by the handler: the `responses` array,
the `healthResponse` variable, and the emitted log lines. -/
structure CapState where
  responses : List Captured
  healthResponse : Option JVal
  logs : List LogEntry

/-- The armed query capture filter:
`url.includes(/api/ds/query)` and the request method being POST. -/
def matchesQuery (e : NetEvent) : Bool :=
  strContains e.url "/api/ds/query" && e.method == "POST"

/-- The armed health capture filter:
`url.includes(/api/datasources)` and `url.includes(/health)`. -/
def matchesHealth (e : NetEvent) : Bool :=
  strContains e.url "/api/datasources" && strContains e.url "/health"

/-- One firing of the `page.on(response)` handler on state `s`:
both filter branches run; on the query branch a parsed body is appended to
the buffer and an unparseable body only logs; on the health branch a parsed
body overwrites `healthResponse`. -/
def onResponse (s : CapState) (e : NetEvent) : CapState :=
  let s1 :=
    if matchesQuery e then
      match e.body with
      | some j =>
          { s with responses := s.responses ++ [Captured.mk e.url j e.status],
                   logs := s.logs ++ [LogEntry.captured e.url e.status] }
      | none => { s with logs := s.logs ++ [LogEntry.parseFailed e.url] }
    else s
  if matchesHealth e then
    match e.body with
    | some j =>
        { s1 with healthResponse := some j,
                  logs := s1.logs ++ [LogEntry.healthReceived] }
    | none => { s1 with logs := s1.logs ++ [LogEntry.healthParseFailed e.url] }
  else s1

/-- Initial handler state: empty buffer, no health response, no logs. -/
def initCapState : CapState := CapState.mk [] none []

/-- Processing a completion-ordered sequence of exchanges through the
handler; `(runCapture evs).responses` is what `drain` returns. -/
def runCapture (evs : List NetEvent) : CapState :=
  evs.foldl onResponse initCapState

/-- The buffer contribution of a single exchange: a matching exchange with
a parsed body yields one entry, anything else yields nothing. -/
def captureOf (e : NetEvent) : Option Captured :=
  if matchesQuery e then e.body.map (fun j => Captured.mk e.url j e.status)
  else none

/-! ## Response validation loop

Embeds the loop of `query-editor.spec.ts` (and the identical loops in
`editor_test.spec.ts` and the unnamed variants): for each captured
response, `results.A` is looked up with optional chaining; if it is
undefined the response is skipped with a log line and `continue`; otherwise
the four `expect` assertions run inside one `try` block, so the first
failing assertion throws, the later assertions of the same response are not
executed, and the `catch` logs the error and lets the loop continue with
the next response. -/

/-- `r.json?.results?.A` of a captured response. -/
def respResultA (r : Captured) : Option JVal :=
  (jget r.json "results").bind (fun v => jget v "A")

/-- `expect(r.status).toBe(200)`. -/
def ruleHttpStatus (r : Captured) : Bool := r.status == 200

/-- `expect(resultA.status).toBe(200)`. -/
def ruleResultStatus (r : Captured) : Bool :=
  match (respResultA r).bind (fun v => jget v "status") with
  | some (JVal.jnum n) => n == 200
  | _ => false

/-- `resultA.frames?.[0]`. -/
def frame0 (r : Captured) : Option JVal :=
  ((respResultA r).bind (fun v => jget v "frames")).bind (fun v => jidx v 0)

/-- The check that `typeof resultA.frames?.[0]?.schema?.name` is the string type. -/
def ruleSchemaNameIsString (r : Captured) : Bool :=
  match ((frame0 r).bind (fun v => jget v "schema")).bind
      (fun v => jget v "name") with
  | some (JVal.jstr _) => true
  | _ => false

/-- `expect(Array.isArray(resultA.frames?.[0]?.data?.values?.[0])).toBe(true)`. -/
def ruleValuesIsArray (r : Captured) : Bool :=
  match (((frame0 r).bind (fun v => jget v "data")).bind
      (fun v => jget v "values")).bind (fun v => jidx v 0) with
  | some (JVal.jarr _) => true
  | _ => false

/-- The ValidationSet of the loop, in the declared source order. -/
def checkRules : List (String × (Captured → Bool)) :=
  [("httpStatusIs200", ruleHttpStatus),
   ("resultAStatusIs200", ruleResultStatus),
   ("schemaNameIsString", ruleSchemaNameIsString),
   ("firstValuesColumnIsArray", ruleValuesIsArray)]

/-- Sequential evaluation of a rule list inside one `try` block: each
passing rule records `true` and evaluation continues; the first failing
rule records `false` and throws, so no later rule of the list runs. -/
def evalUntilFail : List (String × (Captured → Bool)) → Captured →
    List (String × Bool)
  | [], _ => []
  | (n, p) :: rest, r =>
      if p r then (n, true) :: evalUntilFail rest r else [(n, false)]

/-- What the loop body does with one response: skipped via `continue` when
`results.A` is undefined, otherwise checked until the first failure. -/
inductive RespOutcome where
  | skipped : RespOutcome
  | checked : List (String × Bool) → RespOutcome

/-- One iteration of the validation loop. -/
def processResponse (r : Captured) : RespOutcome :=
  match respResultA r with
  | none => RespOutcome.skipped
  | some _ => RespOutcome.checked (evalUntilFail checkRules r)

/-- The whole loop: every buffered response gets an outcome; the `catch`
swallows assertion errors, so the loop itself never aborts. -/
def processAll (rs : List Captured) : List RespOutcome :=
  rs.map processResponse

/-- The failure entries an outcome contributes (names of rules recorded
`false`). -/
def failuresOf : RespOutcome → List String
  | RespOutcome.skipped => []
  | RespOutcome.checked out => (out.filter (fun p => p.2 == false)).map Prod.fst

/-- All failure entries recorded by a run of the validation loop. -/
def loopFailures (rs : List Captured) : List String :=
  ((processAll rs).map failuresOf).flatten

/-- A well-formed `results.A` whose status, schema name and value column
satisfy the last three rules. -/
def goodResultA : JVal :=
  JVal.jobj
    [("status", JVal.jnum 200),
     ("frames", JVal.jarr
       [JVal.jobj
         [("schema", JVal.jobj [("name", JVal.jstr "query result")]),
          ("data", JVal.jobj [("values", JVal.jarr [JVal.jarr []])])]])]

/-- A captured response whose HTTP status is 500 but whose body is
otherwise fully well-formed. -/
def rBadStatus : Captured :=
  Captured.mk "http://localhost:3000/api/ds/query?ds_type=clevercloud-warp10-datasource"
    (JVal.jobj [("results", JVal.jobj [("A", goodResultA)])]) 500

/-- A captured response whose parsed body has no `results.A` field. -/
def rNoResultA : Captured :=
  Captured.mk "http://localhost:3000/api/ds/query?ds_type=clevercloud-warp10-datasource"
    (JVal.jobj [("message", JVal.jstr "no data")]) 200

/-! ## Timestamp conversion

The regression testbed (`Warp10_test.spec.ts`) named by the repository
documentation is not part of `src/`; the conversion law is modelled from
the spec. -/

/-- Modelled from the spec: the timestamp-conversion law of the missing
regression testbed `Warp10_test.spec.ts` — source timestamps are in
microsecond resolution and the validated output timestamp must equal
`floor(source / 1000)` milliseconds, exact integer division (`Nat.div`),
not rounding. -/
def usToMs (t : Nat) : Nat := t / 1000

/-! ## Version probing and action resolution

Embeds `getGrafanaVersion` consumers: `parseInt` of the first dot-segment
with the JS semantics that an unparseable major yields `NaN`, and
`NaN < 10` is `false`; and the selector fallback table of
`clickAddPanelButton`, whose four candidates carry no version predicate and
are tried in declared order. -/

/-- Leading decimal digits of a character list, if any
(the JS `parseInt` core). -/
def leadingDigits : List Char → Option Nat → Option Nat
  | [], acc => acc
  | c :: rest, acc =>
      if c.isDigit then
        leadingDigits rest (some ((acc.getD 0) * 10 + (c.toNat - 48)))
      else acc

/-- The first dot-segment of the version string: the characters before the first dot. -/
def takeUntilDot : List Char → List Char
  | [] => []
  | c :: rest => if c == '.' then [] else c :: takeUntilDot rest

/-- The major component of a version string, with JS parseInt semantics;
`none` models `NaN` (no leading digit). -/
def jsParseIntMajor (v : String) : Option Nat :=
  leadingDigits (takeUntilDot v.data) none

/-- The `major < 10` branch condition; on an unrecognized version the
comparison `NaN < 10` is `false`, so the `else` branch is taken. -/
def majorLt10 (v : String) : Bool :=
  match jsParseIntMajor v with
  | some m => decide (m < 10)
  | none => false

/-- A candidate of an ActionSpec: a concrete selector plus an optional
version predicate (`none` = version-unconditional). -/
structure Candidate where
  sel : String
  pred : Option (String → Bool)

/-- Whether a candidate survives the version filter for version `v`:
candidates with no predicate always pass. -/
def satisfiable (v : String) (c : Candidate) : Bool :=
  match c.pred with
  | none => true
  | some p => p v

/-- Resolution: among the candidates accepted for version `v`, in declared
order, pick the first whose selector is present on the page; `none` is the
resolution failure (`throw new Error(...)` in `clickAddPanelButton`). -/
def resolveAction (spec : List Candidate) (v : String)
    (present : String → Bool) : Option Candidate :=
  (spec.filter (fun c => satisfiable v c)).find? (fun c => present c.sel)

/-- First selector of `clickAddPanelButton`, version-unconditional. -/
def addPanelCandidate1 : Candidate :=
  Candidate.mk "[data-testid=\"data-testid Create new panel button\"]" none

/-- The selector fallback table of `clickAddPanelButton`: four candidates,
none carrying a version predicate. -/
def addPanelCandidates : List Candidate :=
  [addPanelCandidate1,
   Candidate.mk "[data-testid=\"add-panel-button\"]" none,
   Candidate.mk "button[aria-label=\"Add new panel\"]" none,
   Candidate.mk "button:has-text(\"Add visualization\")" none]

/-! ## Scenario step sequence and cleanup

Embeds the body of the basic scenario of `senario.spec.ts` (second
variant) as its sequence of steps: straight-line code in which a failing
step (a thrown `expect` or locator error) aborts the test run at that
point; the datasource delete steps are the final steps and run under no
`finally`-style guarantee. -/

/-- The phase a step belongs to, following the state machine of the spec. -/
inductive PhaseTag where
  | configuring : PhaseTag
  | healthChecking : PhaseTag
  | buildingDashboard : PhaseTag
  | querying : PhaseTag
  | validating : PhaseTag
  | cleaningUp : PhaseTag

/-- One step of the scenario body. -/
structure SStep where
  name : String
  phase : PhaseTag
  isDeleteStep : Bool

/-- The steps of the basic scenario, in source order.  The first
`Save & test` click persists the `test_warp10` datasource; the alert
assertions then validate the connection-refused health result; the delete
click and its confirmation are the last two steps. -/
def scenarioSteps : List SStep :=
  [SStep.mk "gotoNewDatasourcePage" PhaseTag.configuring false,
   SStep.mk "clickWarp10Card" PhaseTag.configuring false,
   SStep.mk "fillDatasourceName" PhaseTag.configuring false,
   SStep.mk "fillInvalidUrl" PhaseTag.configuring false,
   SStep.mk "clickSaveAndTestInvalidUrl" PhaseTag.configuring false,
   SStep.mk "expectAlertVisible" PhaseTag.healthChecking false,
   SStep.mk "expectAlertTextContainsRefusal" PhaseTag.healthChecking false,
   SStep.mk "fillValidUrl" PhaseTag.configuring false,
   SStep.mk "clickSaveAndTestValidUrl" PhaseTag.healthChecking false,
   SStep.mk "clickBuildDashboard" PhaseTag.buildingDashboard false,
   SStep.mk "clickAddPanel" PhaseTag.buildingDashboard false,
   SStep.mk "selectDatasourceCard" PhaseTag.buildingDashboard false,
   SStep.mk "fillQueryEditor" PhaseTag.querying false,
   SStep.mk "clickRunButton" PhaseTag.querying false,
   SStep.mk "finalTestValidation" PhaseTag.validating false,
   SStep.mk "gotoDatasourcesPage" PhaseTag.cleaningUp false,
   SStep.mk "clickDatasourceLink" PhaseTag.cleaningUp false,
   SStep.mk "clickDeleteButton" PhaseTag.cleaningUp true,
   SStep.mk "clickConfirmButton" PhaseTag.cleaningUp true]

/-- Sequential execution against an outcome oracle `ok`: every step up to
and including the first failing step is attempted; nothing after a failing
step runs (a thrown assertion aborts the test body, and there is no
`finally` block). -/
def runPrefixAux (ok : SStep → Bool) : List SStep → List SStep
  | [] => []
  | s :: rest => if ok s then s :: runPrefixAux ok rest else [s]

/-- The steps attempted in a run of the scenario under oracle `ok`. -/
def attempted (ok : SStep → Bool) : List SStep := runPrefixAux ok scenarioSteps

/-- The later phases named by the cleanup guarantee. -/
def laterPhase : PhaseTag → Bool
  | PhaseTag.healthChecking => true
  | PhaseTag.querying => true
  | PhaseTag.validating => true
  | _ => false

/-- Whether the run created the `test_warp10` datasource (the first
`Save & test` click succeeded). -/
def createPerformed (ok : SStep → Bool) : Bool :=
  (attempted ok).any (fun s => (s.name == "clickSaveAndTestInvalidUrl") && ok s)

/-- Whether the run reached and performed a datasource delete step. -/
def deletePerformed (ok : SStep → Bool) : Bool :=
  (attempted ok).any (fun s => s.isDeleteStep && ok s)

/-- Whether some step of a later phase (HealthChecking, Querying,
Validating) failed during the run. -/
def laterPhaseFailureOccurred (ok : SStep → Bool) : Bool :=
  (attempted ok).any (fun s => laterPhase s.phase && !ok s)

/-- The run in which exactly the connection-refused alert-text assertion
fails and every other step succeeds. -/
def failAlertOracle : SStep → Bool :=
  fun s => !(s.name == "expectAlertTextContainsRefusal")

/-! ## Macro round trip

Embeds the positive macro test of `datasource_test.spec.ts`
(`macros: Warp10 macro definition and usage`): the script filled into the
editor, the `page.waitForRequest` predicate, and the assertion
`expect(macroPayload.queries?.[0]?.expr).toContain(...)` evaluated on
`JSON.parse(macroRequest.postData())` — a function of the request alone.
The host-side transport of the editor script into the outgoing POST body
is not part of `src/` and is modelled from the spec. -/

/-- The apostrophe character (WarpScript string quote). -/
def aposChar : Char := Char.ofNat 39

/-- Wrap a WarpScript token in apostrophes. -/
def wsq (s : String) : String :=
  String.singleton aposChar ++ s ++ String.singleton aposChar

/-- The substring the test asserts containment of. -/
def addmacroStoreText : String := wsq "addmacro" ++ " STORE"

/-- The macro definition exactly as filled into the editor. -/
def macroDefText : String := "<%\n  2 +\n%> " ++ addmacroStoreText

/-- The macro invocation. -/
def macroInvocationText : String := "$addmacro"

/-- The full script filled into the editor by the positive macro test. -/
def macroCode : String :=
  macroDefText ++ "\n\n10 32 " ++ macroInvocationText ++ "\n"

/-- Backslash. -/
def bsChar : Char := Char.ofNat 92

/-- Double quote. -/
def dqChar : Char := Char.ofNat 34

/-- Newline. -/
def nlChar : Char := Char.ofNat 10

/-- JSON string escaping of one character (newline, quote, backslash). -/
def jsonEscapeChar (c : Char) : String :=
  if c == nlChar then String.mk [bsChar, 'n']
  else if c == dqChar then String.mk [bsChar, dqChar]
  else if c == bsChar then String.mk [bsChar, bsChar]
  else String.singleton c

/-- JSON string escaping. -/
def jsonEscape (s : String) : String :=
  String.join (s.data.map jsonEscapeChar)

/-- JSON string unescaping (inverse of `jsonEscape` on its image). -/
def jsonUnescapeAux : List Char → List Char
  | [] => []
  | [c] => if c == bsChar then [] else [c]
  | c :: d :: rest =>
      if c == bsChar then
        (if d == 'n' then nlChar else d) :: jsonUnescapeAux rest
      else c :: jsonUnescapeAux (d :: rest)

/-- `suf` is a suffix of `s`. -/
def endsWithL (suf s : List Char) : Bool :=
  beginsWith suf.reverse s.reverse

/-- The payload text before the script: `{"queries":[{"expr":"`. -/
def payloadPre : String :=
  "\x7b" ++ "\"queries\":[" ++ "\x7b" ++ "\"expr\":\""

/-- The payload text after the script: `"}]}`. -/
def payloadSuf : String := "\"" ++ "\x7d" ++ "]" ++ "\x7d"

/-- Modelled from the spec: the query endpoint accepts a POST carrying one
or more named queries, each an opaque script string; the host transports
the editor script verbatim as `queries[0].expr` of the JSON request body.
This host-side request construction is not part of `src/`. -/
def buildPostData (script : String) : String :=
  payloadPre ++ jsonEscape script ++ payloadSuf

/-- An outgoing request as observed by `page.waitForRequest`. -/
structure DsRequest where
  url : String
  method : String
  postData : Option String

/-- Modelled from the spec: the POST issued to the query endpoint when the
panel runs the editor script (url carries the datasource-type
discriminator). -/
def buildQueryRequest (script : String) : DsRequest :=
  DsRequest.mk
    "http://localhost:3000/api/ds/query?ds_type=clevercloud-warp10-datasource"
    "POST" (some (buildPostData script))

/-- The `page.waitForRequest` predicate of the positive macro test:
url includes `/api/ds/query`, method is POST, postData exists and includes
the quoted `addmacro STORE` text. -/
def macroRequestPred (r : DsRequest) : Bool :=
  strContains r.url "/api/ds/query" && r.method == "POST" &&
    (match r.postData with
     | some d => strContains d addmacroStoreText
     | none => false)

/-- `JSON.parse(postData).queries[0].expr` over payloads of the shape
built by `buildPostData`. -/
def parsePayloadExpr (d : String) : Option String :=
  if beginsWith payloadPre.data d.data && endsWithL payloadSuf.data d.data
  then
    some (String.mk (jsonUnescapeAux
      ((d.data.drop payloadPre.data.length).take
        (d.data.length - payloadPre.data.length - payloadSuf.data.length))))
  else none

/-- The assertion of the positive macro test, a function of the request
alone: the parsed payload expr contains the quoted `addmacro STORE` text. -/
def macroAssertionHolds (r : DsRequest) : Bool :=
  match r.postData with
  | some d =>
      match parsePayloadExpr d with
      | some e => strContains e addmacroStoreText
      | none => false
  | none => false

/-- A captured exchange pairing the outgoing request with whatever
response body later arrived. -/
structure MacroExchange where
  request : DsRequest
  responseBody : Option JVal

/-- The macro check evaluated on an exchange: it reads only the request. -/
def macroExchangeCheck (e : MacroExchange) : Bool :=
  macroAssertionHolds e.request

/-! ## Datasource health validation

The plugin backend that answers the health check is not part of `src/`;
its report is modelled from the spec.  The containment check is the one
the scenario asserts on the alert text. -/

/-- The connection-refusal indicator the scenario asserts:
the containment check the scenario runs on the alert text. -/
def connectionRefusedIndicator : String := "connect: connection refused"

/-- A `{status, message}` health report. -/
structure HealthReport where
  status : String
  message : String

/-- Modelled from the spec: the datasource health endpoint returns
`{status, message}`; with the reachable backend `http://warp10:8080` it
confirms connectivity, and with the deliberately unreachable backend
`http://localhost:9999` it surfaces a connection-refused style message
instead of an ok-shaped success report. -/
def healthCheck (url : String) : HealthReport :=
  if url == "http://warp10:8080" then
    HealthReport.mk "OK" "Datasource is working"
  else
    HealthReport.mk "ERROR"
      ("Get " ++ url ++ "/api/v0/version: dial tcp: "
        ++ connectionRefusedIndicator)

/-- The scenario assertion on the alert text. -/
def alertContainsRefusal (t : String) : Bool :=
  strContains t connectionRefusedIndicator

/-! ## Arm/trigger ordering traces

Each test body, reduced to the sequence of its filter-arming steps
(`page.on(response)` registrations, `page.waitForRequest` in a
`Promise.all`) and its UI actions, each action labelled with the capture
filters whose matching exchange it can trigger.  `Promise.all([wait, click])`
evaluates its array in order, so the wait is armed before the click
begins. -/

/-- A step of an arming trace. -/
inductive TStep where
  | armF : String → TStep
  | act : List String → TStep

/-- Folding over a trace with the set of already-armed filters: every
action may only trigger filters armed strictly earlier. -/
def wellArmedAux : List String → List TStep → Bool
  | _, [] => true
  | armed, TStep.armF f :: rest => wellArmedAux (f :: armed) rest
  | armed, TStep.act ts :: rest =>
      ts.all (fun f => armed.contains f) && wellArmedAux armed rest

/-- No action of the trace can trigger a filter that is not yet armed. -/
def wellArmed (tr : List TStep) : Bool := wellArmedAux [] tr

/-- `senario.spec.ts` (first variant): handler armed first, then version
probe (an API-context request, not a page response), datasource creation,
save (health), dashboard build, query run, cleanup. -/
def senario1Trace : List TStep :=
  [TStep.armF "dsQuery", TStep.armF "dsHealth",
   TStep.act [], TStep.act [], TStep.act [], TStep.act [], TStep.act [],
   TStep.act ["dsHealth"],
   TStep.act [], TStep.act [],
   TStep.act ["dsQuery"],
   TStep.act [],
   TStep.act ["dsQuery"],
   TStep.act [], TStep.act [], TStep.act [], TStep.act []]

/-- `senario.spec.ts` (second variant): as above with the invalid-URL
save-and-test and its alert assertions before the valid save. -/
def senario2Trace : List TStep :=
  [TStep.armF "dsQuery", TStep.armF "dsHealth",
   TStep.act [], TStep.act [], TStep.act [], TStep.act [], TStep.act [],
   TStep.act ["dsHealth"],
   TStep.act [], TStep.act [], TStep.act [],
   TStep.act ["dsHealth"],
   TStep.act [], TStep.act [],
   TStep.act ["dsQuery"],
   TStep.act [],
   TStep.act ["dsQuery"],
   TStep.act [], TStep.act [], TStep.act [], TStep.act []]

/-- `query-editor.spec.ts`: handler armed, then the navigation that loads
the dashboard whose panel issues the queries. -/
def queryEditorTrace : List TStep :=
  [TStep.armF "dsQuery",
   TStep.act ["dsQuery"],
   TStep.act [], TStep.act []]

/-- `editor_test.spec.ts`: handler armed, then home navigation (the home
dashboard panel may query), menu navigation, and opening the panel editor
(which re-runs the query). -/
def editorTestTrace : List TStep :=
  [TStep.armF "dsQuery",
   TStep.act ["dsQuery"],
   TStep.act [], TStep.act [], TStep.act [], TStep.act [], TStep.act [],
   TStep.act ["dsQuery"],
   TStep.act []]

/-- `datasource_test.spec.ts` (configuration test): both filters armed,
then datasource creation and the two save-and-test clicks. -/
def datasourceTrace : List TStep :=
  [TStep.armF "dsQuery", TStep.armF "dsHealth",
   TStep.act [], TStep.act [], TStep.act [], TStep.act [], TStep.act [],
   TStep.act ["dsHealth"],
   TStep.act [], TStep.act [],
   TStep.act ["dsHealth"],
   TStep.act [], TStep.act [], TStep.act []]

/-- The macros test: navigation and editor fill first (no armed filter is
triggerable), then each `Promise.all` pair arms `waitForRequest` /
`waitForResponse` before the run-button click that triggers it. -/
def macrosTrace : List TStep :=
  [TStep.act [], TStep.act [], TStep.act [], TStep.act [], TStep.act [],
   TStep.act [],
   TStep.armF "macroReq",
   TStep.act ["macroReq"],
   TStep.act [],
   TStep.armF "brokenReq", TStep.armF "brokenResp",
   TStep.act ["brokenReq", "brokenResp"]]

/-! ## Helper lemmas -/

/-- A single handler firing appends exactly the buffer contribution of the
exchange. -/
theorem onResponse_responses (s : CapState) (e : NetEvent) :
    (onResponse s e).responses = s.responses ++ (captureOf e).toList := by
  cases hm : matchesQuery e <;> cases hb : e.body <;>
    cases hh : matchesHealth e <;>
      simp [onResponse, captureOf, hm, hb, hh]

/-- Folding the handler over a completion-ordered event sequence appends
the buffer contributions of the events, in order. -/
theorem foldl_onResponse_responses (evs : List NetEvent) (s : CapState) :
    (evs.foldl onResponse s).responses
      = s.responses ++ evs.filterMap captureOf := by
  induction evs generalizing s with
  | nil => simp
  | cons e evs ih =>
      rw [List.foldl_cons, ih, onResponse_responses]
      cases hc : captureOf e <;> simp [List.filterMap_cons, hc]

/-- An exchange contributes a buffer entry exactly when it matches the
query filter and its body parsed. -/
theorem captureOf_isSome (e : NetEvent) :
    (captureOf e).isSome = (matchesQuery e && e.body.isSome) := by
  cases hm : matchesQuery e <;> cases hb : e.body <;>
    simp [captureOf, hm, hb]

/-- Counting buffer contributions equals counting matching parsed
exchanges. -/
theorem length_filterMap_captureOf (evs : List NetEvent) :
    (evs.filterMap captureOf).length
      = (evs.filter (fun e => matchesQuery e && e.body.isSome)).length := by
  induction evs with
  | nil => rfl
  | cons e evs ih =>
      cases hc : captureOf e with
      | none =>
          have h : (matchesQuery e && e.body.isSome) = false := by
            rw [← captureOf_isSome, hc]; rfl
          simp [List.filterMap_cons, List.filter_cons, hc, h, ih]
      | some c =>
          have h : (matchesQuery e && e.body.isSome) = true := by
            rw [← captureOf_isSome, hc]; rfl
          simp [List.filterMap_cons, List.filter_cons, hc, h, ih]

/-! ## Claim theorems -/

/-- C1 (code defect, at the failing input): in the run of the basic
scenario of `senario.spec.ts` in which the connection-refused alert-text
assertion fails after the first Save-and-test click has already persisted
the `test_warp10` datasource, the test body aborts at the failed assertion:
a later-phase failure occurred, yet neither delete step is performed.
Cleanup runs only on the success path, so the datasource leaks, contrary
to the claimed guarantee. -/
theorem scenario_cleanup_skipped_on_late_failure :
    createPerformed failAlertOracle = true ∧
    laterPhaseFailureOccurred failAlertOracle = true ∧
    deletePerformed failAlertOracle = false :=
  ⟨rfl, rfl, rfl⟩

/-- C2 (counterexample): a matching `/api/ds/query` POST exchange whose
response body cannot be parsed as JSON is not appended to the capture
buffer at all — after the handler fires on it, the buffer is still empty,
so no `parseFailed`-tagged entry exists in the buffer. -/
theorem parse_failure_exchange_dropped_cex :
    matchesQuery
        (NetEvent.mk "http://localhost:3000/api/ds/query?cex=c2" "POST"
          none 200) = true ∧
    (runCapture
        [NetEvent.mk "http://localhost:3000/api/ds/query?cex=c2" "POST"
          none 200]).responses = [] :=
  ⟨rfl, rfl⟩

/-- C2 (amended): a matching exchange whose response body cannot be parsed
as JSON is dropped from the capture buffer — the buffer is unchanged — and
only a log entry tagged with the url of the exchange records the parse failure,
so the log, not the buffer, is what reports which request produced
unparseable output. -/
theorem parse_failure_logged_not_buffered (s : CapState) (e : NetEvent)
    (hm : matchesQuery e = true) (hb : e.body = none)
    (hh : matchesHealth e = false) :
    (onResponse s e).responses = s.responses ∧
    (onResponse s e).logs = s.logs ++ [LogEntry.parseFailed e.url] := by
  simp [onResponse, hm, hb, hh]

/-- Witness for the amended C2 at a concrete unparseable matching
exchange. -/
theorem parse_failure_logged_not_buffered_witness :
    matchesQuery
        (NetEvent.mk "http://localhost:3000/api/ds/query?w=c2" "POST"
          none 200) = true ∧
    (NetEvent.mk "http://localhost:3000/api/ds/query?w=c2" "POST"
        none 200).body = none ∧
    matchesHealth
        (NetEvent.mk "http://localhost:3000/api/ds/query?w=c2" "POST"
          none 200) = false ∧
    ((onResponse initCapState
        (NetEvent.mk "http://localhost:3000/api/ds/query?w=c2" "POST"
          none 200)).responses = [] ∧
     (onResponse initCapState
        (NetEvent.mk "http://localhost:3000/api/ds/query?w=c2" "POST"
          none 200)).logs
       = [LogEntry.parseFailed "http://localhost:3000/api/ds/query?w=c2"]) := by
  refine ⟨rfl, rfl, rfl, ?_⟩
  have h := parse_failure_logged_not_buffered initCapState
    (NetEvent.mk "http://localhost:3000/api/ds/query?w=c2" "POST" none 200)
    rfl rfl rfl
  simpa [initCapState] using h

/-- C3 (counterexample): for the captured response `rBadStatus` (HTTP
status 500, body otherwise fully well-formed) the failing first rule
prevents the remaining three rules of the same ValidationSet from being
evaluated: only one outcome is recorded, although the schema-name and
array rules would have held. -/
theorem failing_rule_short_circuits_cex :
    processResponse rBadStatus
      = RespOutcome.checked [("httpStatusIs200", false)] ∧
    ruleSchemaNameIsString rBadStatus = true ∧
    ruleValuesIsArray rBadStatus = true :=
  ⟨rfl, rfl, rfl⟩

/-- C3 (amended): evaluating a ValidationSet against one response stops at
the first failing rule of that response — the passing prefix is recorded
`true`, the first failing rule is recorded `false`, and the rules after it
are not evaluated — while the caught failure leaves the rule sets of every
other response in the loop evaluated independently. -/
theorem rule_eval_stops_at_first_failure :
    (∀ (rs1 rs2 : List Captured) (r : Captured),
      processAll (rs1 ++ r :: rs2)
        = processAll rs1 ++ processResponse r :: processAll rs2) ∧
    (∀ (L : List (String × (Captured → Bool))) (r : Captured),
      evalUntilFail L r
        = (L.takeWhile (fun p => p.2 r)).map (fun p => (p.1, true))
          ++ ((L.dropWhile (fun p => p.2 r)).head?.toList.map
              (fun p => (p.1, false)))) := by
  constructor
  · intro rs1 rs2 r
    simp [processAll]
  · intro L r
    induction L with
    | nil => rfl
    | cons hd tl ih =>
        obtain ⟨n, p⟩ := hd
        cases hp : p r <;>
          simp [evalUntilFail, List.takeWhile_cons, List.dropWhile_cons,
            hp, ih]

/-- C4: the timestamp conversion law is exact integer floor division by
1000: the concrete microsecond source `1700000000123456` converts to
`1700000000123` milliseconds, not a rounded `1700000000124`, and for every
source `t` the result is characterized as the floor of `t / 1000`. -/
theorem timestamp_conversion_floor_div :
    usToMs 1700000000123456 = 1700000000123 ∧
    usToMs 1700000000123456 ≠ 1700000000124 ∧
    (∀ t : Nat, 1000 * usToMs t ≤ t ∧ t < 1000 * (usToMs t + 1)) := by
  refine ⟨rfl, by decide, fun t => ?_⟩
  simp only [usToMs]
  omega

/-- C5: the exchange of the positive macro test: the outgoing request built
from the editor script matches the `waitForRequest` predicate (POST to the
query endpoint whose postData contains the quoted addmacro STORE text);
its request body decodes to the script, which contains the macro
definition and its invocation verbatim as substrings; the containment
assertion of the test holds and is a function of the request alone — it
reads no response body. -/
theorem macro_roundtrip_request_body :
    macroRequestPred (buildQueryRequest macroCode) = true ∧
    ((buildQueryRequest macroCode).postData.map parsePayloadExpr)
      = some (some macroCode) ∧
    strContains macroCode macroDefText = true ∧
    strContains macroCode macroInvocationText = true ∧
    macroAssertionHolds (buildQueryRequest macroCode) = true ∧
    (∀ (r : DsRequest) (b1 b2 : Option JVal),
      macroExchangeCheck (MacroExchange.mk r b1)
        = macroExchangeCheck (MacroExchange.mk r b2)) :=
  ⟨rfl, rfl, rfl, rfl, rfl, fun _ _ _ => rfl⟩

/-- C6 (counterexample): after one matching completed exchange whose body
does not parse, the buffer holds zero entries, not one — `drain` does not
return exactly `N` entries for `N` matching completed exchanges. -/
theorem drain_count_parse_failure_cex :
    matchesQuery
        (NetEvent.mk "http://localhost:3000/api/ds/query?cex=c6" "POST"
          none 200) = true ∧
    (runCapture
        [NetEvent.mk "http://localhost:3000/api/ds/query?cex=c6" "POST"
          none 200]).responses.length = 0 ∧
    (runCapture
        [NetEvent.mk "http://localhost:3000/api/ds/query?cex=c6" "POST"
          none 200]).responses.length ≠ 1 :=
  ⟨rfl, rfl, by decide⟩

/-- C6 (amended): the buffer after any completion-ordered event sequence
is exactly the sequence of matching exchanges whose bodies parsed, in
completion order — interleaved non-matching traffic neither appears nor
perturbs the order — and its length is the number of matching parsed
exchanges. -/
theorem drain_returns_matching_parsed_in_order (evs : List NetEvent) :
    (runCapture evs).responses = evs.filterMap captureOf ∧
    (runCapture evs).responses.length
      = (evs.filter (fun e => matchesQuery e && e.body.isSome)).length := by
  have h : (runCapture evs).responses = evs.filterMap captureOf := by
    rw [runCapture, foldl_onResponse_responses]
    simp [initCapState]
  exact ⟨h, by rw [h, length_filterMap_captureOf]⟩

/-- C7: an ActionSpec containing a version-unconditional candidate never
loses it to the version filter: for every version string — including one
whose major component does not parse — the candidate is among those tried,
the tried list is nonempty, and resolution can only fail because no tried
selector is present, never because of the version. -/
theorem unconditional_candidate_always_satisfiable
    (spec : List Candidate) (c0 : Candidate) (v : String)
    (present : String → Bool)
    (h1 : c0 ∈ spec) (h2 : c0.pred = none) :
    c0 ∈ spec.filter (fun c => satisfiable v c) ∧
    spec.filter (fun c => satisfiable v c) ≠ [] ∧
    (resolveAction spec v present = none → present c0.sel = false) := by
  have hsat : satisfiable v c0 = true := by simp [satisfiable, h2]
  have hmem : c0 ∈ spec.filter (fun c => satisfiable v c) :=
    List.mem_filter.mpr ⟨h1, hsat⟩
  refine ⟨hmem, ?_, ?_⟩
  · intro hnil
    rw [hnil] at hmem
    exact absurd hmem (List.not_mem_nil c0)
  · intro hres
    have hnp := List.find?_eq_none.mp hres c0 hmem
    cases hb : present c0.sel with
    | false => rfl
    | true => exact absurd hb hnp

/-- Witness for C7 at the `clickAddPanelButton` spec and the version
string `beta`, whose major component parses to `NaN`. -/
theorem unconditional_candidate_always_satisfiable_witness :
    jsParseIntMajor "beta" = none ∧
    majorLt10 "beta" = false ∧
    (addPanelCandidate1
        ∈ addPanelCandidates.filter (fun c => satisfiable "beta" c) ∧
     addPanelCandidates.filter (fun c => satisfiable "beta" c) ≠ [] ∧
     (resolveAction addPanelCandidates "beta" (fun _ => false) = none →
        (fun _ : String => false) addPanelCandidate1.sel = false)) := by
  refine ⟨rfl, rfl, ?_⟩
  exact unconditional_candidate_always_satisfiable addPanelCandidates
    addPanelCandidate1 "beta" (fun _ => false)
    (by simp [addPanelCandidates]) rfl

/-- C8: for the deliberately unreachable backend URL, the message of the
health report contains the connection-refusal indicator the scenario asserts,
and its status is not an ok-shaped success. -/
theorem negative_health_connection_refused :
    alertContainsRefusal (healthCheck "http://localhost:9999").message
      = true ∧
    (healthCheck "http://localhost:9999").status = "ERROR" ∧
    (healthCheck "http://localhost:9999").status ≠ "ok" ∧
    (healthCheck "http://localhost:9999").status ≠ "OK" := by
  refine ⟨rfl, rfl, by decide, by decide⟩

/-- C9: in every scenario trace, each capture filter is armed strictly
before the first UI action that can trigger an exchange matching it. -/
theorem filters_armed_before_triggers :
    wellArmed senario1Trace = true ∧ wellArmed senario2Trace = true ∧
    wellArmed queryEditorTrace = true ∧ wellArmed editorTestTrace = true ∧
    wellArmed datasourceTrace = true ∧ wellArmed macrosTrace = true :=
  ⟨rfl, rfl, rfl, rfl, rfl, rfl⟩

/-- C10: a captured response whose parsed body has no `results.A` field is
skipped entirely by the validation loop: its outcome is `skipped`, no rule
is evaluated against it, and its presence changes neither the other
outcomes of the other responses nor the recorded failure entries. -/
theorem missing_resultA_skipped (rs1 rs2 : List Captured) (r : Captured)
    (h : respResultA r = none) :
    processResponse r = RespOutcome.skipped ∧
    processAll (rs1 ++ r :: rs2)
      = processAll rs1 ++ RespOutcome.skipped :: processAll rs2 ∧
    loopFailures (rs1 ++ r :: rs2) = loopFailures (rs1 ++ rs2) := by
  have h1 : processResponse r = RespOutcome.skipped := by
    simp [processResponse, h]
  refine ⟨h1, ?_, ?_⟩
  · simp [processAll, h1]
  · simp [loopFailures, processAll, h1, failuresOf]

/-- Witness for C10 at the concrete response `rNoResultA`. -/
theorem missing_resultA_skipped_witness :
    respResultA rNoResultA = none ∧
    (processResponse rNoResultA = RespOutcome.skipped ∧
     processAll [rNoResultA] = [RespOutcome.skipped] ∧
     loopFailures [rNoResultA] = loopFailures []) := by
  refine ⟨rfl, ?_⟩
  have h := missing_resultA_skipped [] [] rNoResultA rfl
  simpa [processAll] using h
